import Mathlib

set_option maxRecDepth 10000

/-!
Verification development for the FarmAssist Pro backend (`src/main.py`).

The Python helpers and endpoint bodies are shallowly embedded as executable
Lean definitions.  External model calls (`genai.GenerativeModel.generate_content`)
are modelled by an oracle of type `Gen`: given the prompt string it either
raises (`Except.error ()`) or returns the response's `.text` attribute
(`Option String`, since the SDK may yield a missing/empty text).  Python
exceptions are modelled with `Except Unit`; HTTP endpoint results carry either
an `(status, detail)` error (for `HTTPException`) or the success payload.
-/

/-- JSON values as produced by Python's `json.loads`.  Integers and floats are
kept apart (`json.loads "1"` is `int`, `"1.0"`/`"1e2"` are `float`); a float is
stored as mantissa times a power of ten.  Objects are key-value lists with
unique keys, built with last-wins insertion exactly like a Python `dict`. -/
inductive Json where
  | null
  | bool (b : Bool)
  | numI (n : Int)
  | numF (mant : Int) (exp10 : Int)
  | str (s : String)
  | arr (elems : List Json)
  | obj (fields : List (String × Json))

/-- `true` exactly on `Json.obj` values (a Python mapping). -/
def Json.isObj : Json → Bool
  | .obj _ => true
  | _ => false

/-- Python `dict` insertion: update the value in place if the key exists
(keeping its position), otherwise append the binding at the end. -/
def objInsert (fields : List (String × Json)) (k : String) (v : Json) :
    List (String × Json) :=
  match fields with
  | [] => [(k, v)]
  | (k1, v1) :: rest =>
    if k1 == k then (k1, v) :: rest else (k1, v1) :: objInsert rest k v

/-- Key lookup in an object's field list. -/
def objLookup (fields : List (String × Json)) (k : String) : Option Json :=
  match fields with
  | [] => none
  | (k1, v1) :: rest => if k1 == k then some v1 else objLookup rest k

/-- The opening brace character, kept as a named constant. -/
def lbrace : Char := Char.ofNat 123

/-- The closing brace character, kept as a named constant. -/
def rbrace : Char := Char.ofNat 125

/-- JSON whitespace (the exact set skipped by Python's `json` scanner). -/
def jsonWs (c : Char) : Bool :=
  c == ' ' || c == '\t' || c == '\n' || c == '\r'

/-- Drop leading JSON whitespace. -/
def skipWs : List Char → List Char
  | [] => []
  | c :: cs => if jsonWs c then skipWs cs else c :: cs

/-- Decimal digit test. -/
def isDigitCh (c : Char) : Bool := '0' ≤ c && c ≤ '9'

def digitVal (c : Char) : Nat := c.toNat - 48

def hexVal (c : Char) : Option Nat :=
  if '0' ≤ c && c ≤ '9' then some (c.toNat - 48)
  else if 'a' ≤ c && c ≤ 'f' then some (c.toNat - 87)
  else if 'A' ≤ c && c ≤ 'F' then some (c.toNat - 55)
  else none

/-- Body of a JSON string literal, after the opening quote: strict mode as in
Python (`strict=True`): raw control characters are rejected, only the standard
escapes are accepted.  `\uXXXX` is mapped through `Char.ofNat` (lone
surrogates, which Lean's `Char` cannot carry, degrade to `\0`; no input in
this development contains them). -/
def parseStrBody : List Char → List Char → Option (String × List Char)
  | _, [] => none
  | acc, c :: rest =>
    if c == '"' then some (String.mk acc.reverse, rest)
    else if c == '\\' then
      match rest with
      | [] => none
      | e :: rest1 =>
        if e == '"' then parseStrBody ('"' :: acc) rest1
        else if e == '\\' then parseStrBody ('\\' :: acc) rest1
        else if e == '/' then parseStrBody ('/' :: acc) rest1
        else if e == 'b' then parseStrBody (Char.ofNat 8 :: acc) rest1
        else if e == 'f' then parseStrBody (Char.ofNat 12 :: acc) rest1
        else if e == 'n' then parseStrBody ('\n' :: acc) rest1
        else if e == 'r' then parseStrBody ('\r' :: acc) rest1
        else if e == 't' then parseStrBody ('\t' :: acc) rest1
        else if e == 'u' then
          match rest1 with
          | h1 :: h2 :: h3 :: h4 :: rest2 =>
            match hexVal h1, hexVal h2, hexVal h3, hexVal h4 with
            | some a, some b, some c3, some d =>
              parseStrBody (Char.ofNat (((a * 16 + b) * 16 + c3) * 16 + d) :: acc) rest2
            | _, _, _, _ => none
          | _ => none
        else none
    else if c.toNat < 32 then none
    else parseStrBody (c :: acc) rest

/-- Greedily consume decimal digits, returning them and the rest. -/
def takeDigits : List Char → List Char × List Char
  | [] => ([], [])
  | c :: cs =>
    if isDigitCh c then
      let (ds, rest) := takeDigits cs
      (c :: ds, rest)
    else ([], c :: cs)

def digitsToNat (ds : List Char) : Nat :=
  ds.foldl (fun acc c => acc * 10 + digitVal c) 0

/-- JSON number literal, following Python's `NUMBER_RE`:
`-?(0|[1-9]\d*)(\.\d+)?([eE][-+]?\d+)?`.  A fraction or exponent makes the
value a float; otherwise it is an int.  Like the regex, a bare `.` or `e`
not followed by digits is left unconsumed. -/
def parseNum (cs : List Char) : Option (Json × List Char) :=
  let (neg, cs1) :=
    match cs with
    | c :: r => if c == '-' then (true, r) else (false, cs)
    | [] => (false, cs)
  match cs1 with
  | [] => none
  | c :: r =>
    if c == '0' then parseNumTail neg [c] r
    else if isDigitCh c && !(c == '0') then
      let (ds, rest) := takeDigits r
      parseNumTail neg (c :: ds) rest
    else none
where
  parseNumTail (neg : Bool) (intDigits : List Char) (cs : List Char) :
      Option (Json × List Char) :=
    -- optional fraction
    let (fracDigits, cs2) :=
      match cs with
      | c :: r =>
        if c == '.' then
          match takeDigits r with
          | ([], _) => (([] : List Char), cs)
          | (ds, rest) => (ds, rest)
        else ([], cs)
      | [] => ([], cs)
    -- optional exponent
    let (expPart, cs3) :=
      match cs2 with
      | c :: r =>
        if c == 'e' || c == 'E' then
          match r with
          | e1 :: r1 =>
            if e1 == '-' || e1 == '+' then
              match takeDigits r1 with
              | ([], _) => ((none : Option (Bool × List Char)), cs2)
              | (ds, rest) => (some (e1 == '-', ds), rest)
            else
              match takeDigits r with
              | ([], _) => ((none : Option (Bool × List Char)), cs2)
              | (ds, rest) => (some (false, ds), rest)
          | [] => (none, cs2)
        else (none, cs2)
      | [] => (none, cs2)
    let intVal : Int := Int.ofNat (digitsToNat intDigits)
    if fracDigits.isEmpty && expPart.isNone then
      some (.numI (if neg then -intVal else intVal), cs3)
    else
      let mant : Int := Int.ofNat (digitsToNat (intDigits ++ fracDigits))
      let mant := if neg then -mant else mant
      let e1 : Int := -(Int.ofNat fracDigits.length)
      let e2 : Int :=
        match expPart with
        | some (eneg, ds) =>
          let ev := Int.ofNat (digitsToNat ds)
          if eneg then -ev else ev
        | none => 0
      some (.numF mant (e1 + e2), cs3)

/-- Check that `kw` literally heads `cs`; on success return `v` and the rest. -/
def expectKeyword (kw : List Char) (cs : List Char) (v : Json) :
    Option (Json × List Char) :=
  match kw, cs with
  | [], rest => some (v, rest)
  | k :: ks, c :: rest => if c == k then expectKeyword ks rest v else none
  | _ :: _, [] => none

mutual

/-- One JSON value (fueled recursive-descent, mirroring `json.loads`).  The
fuel only bounds nesting, which consumes at least one character per level, so
`length + 1` fuel at top level is never the limiting factor. -/
def parseValue : Nat → List Char → Option (Json × List Char)
  | 0, _ => none
  | fuel + 1, cs =>
    match skipWs cs with
    | [] => none
    | c :: rest =>
      if c == lbrace then
        match skipWs rest with
        | c1 :: rest1 =>
          if c1 == rbrace then some (.obj [], rest1)
          else parseMembers fuel (c1 :: rest1) []
        | [] => none
      else if c == '[' then
        match skipWs rest with
        | c1 :: rest1 =>
          if c1 == ']' then some (.arr [], rest1)
          else parseElems fuel (c1 :: rest1) []
        | [] => none
      else if c == '"' then
        match parseStrBody [] rest with
        | some (s, rest1) => some (.str s, rest1)
        | none => none
      else if c == 't' then expectKeyword ['r', 'u', 'e'] rest (.bool true)
      else if c == 'f' then expectKeyword ['a', 'l', 's', 'e'] rest (.bool false)
      else if c == 'n' then expectKeyword ['u', 'l', 'l'] rest .null
      else parseNum (c :: rest)

/-- Members of an object after `{` (at least one pending), accumulating with
Python-`dict` insertion semantics. -/
def parseMembers (fuel : Nat) (cs : List Char) (acc : List (String × Json)) :
    Option (Json × List Char) :=
  match fuel with
  | 0 => none
  | fuel + 1 =>
    match skipWs cs with
    | c :: rest =>
      if c == '"' then
        match parseStrBody [] rest with
        | some (key, rest1) =>
          match skipWs rest1 with
          | c1 :: rest2 =>
            if c1 == ':' then
              match parseValue fuel rest2 with
              | some (v, rest3) =>
                let acc1 := objInsert acc key v
                match skipWs rest3 with
                | c2 :: rest4 =>
                  if c2 == ',' then parseMembers fuel rest4 acc1
                  else if c2 == rbrace then some (.obj acc1, rest4)
                  else none
                | [] => none
              | none => none
            else none
          | [] => none
        | none => none
      else none
    | [] => none

/-- Elements of an array after `[` (at least one pending). -/
def parseElems (fuel : Nat) (cs : List Char) (acc : List Json) :
    Option (Json × List Char) :=
  match fuel with
  | 0 => none
  | fuel + 1 =>
    match parseValue fuel cs with
    | some (v, rest) =>
      match skipWs rest with
      | c :: rest1 =>
        if c == ',' then parseElems fuel rest1 (acc ++ [v])
        else if c == ']' then some (.arr (acc ++ [v]), rest1)
        else none
      | [] => none
    | none => none

end

/-- Model of Python's `json.loads`: parse one value and require that only
whitespace remains (`Extra data` otherwise); `none` models a raised
`JSONDecodeError`. -/
def jsonLoads (s : String) : Option Json :=
  match parseValue (s.length + 1) s.data with
  | some (v, rest) => if (skipWs rest).isEmpty then some v else none
  | none => none

/-- Model of `re.search(r'\{[\s\S]*\}', text)`: the greedy match runs from the
first `{` to the last `}` of the whole text (provided that `}` comes after the
`{`); `none` when there is no such span. -/
def braceSpan (s : String) : Option String :=
  match s.data.dropWhile (fun c => !(c == lbrace)) with
  | [] => none
  | suf =>
    match (suf.reverse.dropWhile (fun c => !(c == rbrace))) with
    | [] => none
    | revCore => some (String.mk revCore.reverse)

/-- `safe_json_parse` from `src/main.py`: try the brace-span substring first;
when no span exists, try the whole text; any parse failure yields `{}`. -/
def safe_json_parse (text : String) : Json :=
  match braceSpan text with
  | some core => (jsonLoads core).getD (.obj [])
  | none => (jsonLoads text).getD (.obj [])

/-! ### Python string primitives used by the helpers -/

/-- The whitespace set stripped by Python's `str.strip()` (ASCII part). -/
def pySpace (c : Char) : Bool :=
  c == ' ' || c == '\t' || c == '\n' || c == '\r' ||
    c == Char.ofNat 11 || c == Char.ofNat 12

/-- Python `str.strip()`. -/
def pyStrip (s : String) : String :=
  String.mk (((s.data.dropWhile pySpace).reverse.dropWhile pySpace).reverse)

/-- Python `str.lower()` (ASCII range; every table keyword and test string in
this development is ASCII). -/
def pyLowerChar (c : Char) : Char :=
  if 'A' ≤ c && c ≤ 'Z' then Char.ofNat (c.toNat + 32) else c

/-- Python `str.lower()`. -/
def pyLower (s : String) : String := String.mk (s.data.map pyLowerChar)

/-- `sub` heads `l`. -/
def headsL (sub l : List Char) : Bool :=
  match sub, l with
  | [], _ => true
  | _ :: _, [] => false
  | a :: as1, b :: bs => a == b && headsL as1 bs

/-- Substring occurrence on character lists. -/
def containsSubL (l sub : List Char) : Bool :=
  match l with
  | [] => sub.isEmpty
  | _ :: rest => headsL sub l || containsSubL rest sub

/-- Python's `needle in hay` on strings: substring containment. -/
def strContainsSub (hay needle : String) : Bool := containsSubL hay.data needle.data

/-- Python truthiness (`bool(x)`) of a JSON value: `None`, `False`, zero,
empty string/list/dict are falsy. -/
def pyFalsy : Json → Bool
  | .null => true
  | .bool b => !b
  | .numI n => n == 0
  | .numF m _ => m == 0
  | .str s => s.isEmpty
  | .arr xs => xs.isEmpty
  | .obj kvs => kvs.isEmpty

def pyTruthy (v : Json) : Bool := !pyFalsy v

/-- Python `repr` of a string, as used inside `str()` of containers
(approximation: quoting without escape refinement; no claim exercises it). -/
def pyReprStr (s : String) : String := "\x27" ++ s ++ "\x27"

/-- Python `str()` of a JSON value, fueled to cross the `List` nesting.
Scalars are exact (`str(80) = "80"`, `str(True) = "True"`, `str(None) =
"None"`); floats and container `repr`s are best-effort renderings that no
claim in this development evaluates. -/
def pyStrF : Nat → Json → String
  | _, .str s => s
  | _, .numI n => toString n
  | _, .numF m e => toString m ++ "e" ++ toString e
  | _, .bool true => "True"
  | _, .bool false => "False"
  | _, .null => "None"
  | 0, .arr _ => ""
  | 0, .obj _ => ""
  | fuel + 1, .arr xs =>
    "[" ++ String.intercalate ", "
      (xs.map (fun x =>
        match x with
        | .str s => pyReprStr s
        | _ => pyStrF fuel x)) ++ "]"
  | fuel + 1, .obj kvs =>
    "\x7b" ++ String.intercalate ", "
      (kvs.map (fun kv =>
        pyReprStr kv.1 ++ ": " ++
          match kv.2 with
          | .str s => pyReprStr s
          | _ => pyStrF fuel kv.2)) ++ "\x7d"

/-- Python `str()` of a JSON value.  The fuel far exceeds the nesting depth of
any value arising in this development (parsed values nest at most as deep as
their source text is long). -/
def pyStr (v : Json) : String := pyStrF 1000000 v

/-! ### The model-call oracle and the translation helpers of `src/main.py` -/

/-- Oracle for `build_model().generate_content(prompt).text`: `.error ()` is a
raised exception anywhere in the call, `.ok r` is the returned `.text`
attribute (possibly missing/`None`, hence `Option`). -/
abbrev Gen := String → Except Unit (Option String)

/-- The `lang_name` selection of `translate_text`. -/
def langName (target_lang : String) : String :=
  if target_lang == "hi" then "Hindi"
  else if target_lang == "kn" then "Kannada"
  else "English"

/-- The f-string prompt built by `translate_text`. -/
def transPrompt (text target_lang : String) : String :=
  "Translate this to " ++ langName target_lang ++
    ". Return only the translated text:\n\n" ++ text

/-- `translate_text` from `src/main.py`, instrumented with the number of
model calls it issues (the second component). -/
def translate_textC (gen : Gen) (text target_lang : String) : String × Nat :=
  if text.isEmpty || target_lang == "en" then (text, 0)
  else
    match gen (transPrompt text target_lang) with
    | .error _ => (text, 1)
    | .ok r => (pyStrip (r.getD ""), 1)

/-- `translate_text` from `src/main.py` (result only). -/
def translate_text (gen : Gen) (text target_lang : String) : String :=
  (translate_textC gen text target_lang).1

/-- `translate_list` from `src/main.py` at its annotated type
(`List[str]`, with `None` as the extra falsy input its `or []` guards). -/
def translate_list (gen : Gen) (items : Option (List String)) (lang : String) :
    List String :=
  (items.getD []).map (fun x => translate_text gen x lang)

/-! ### Medicine-link lookup -/

/-- The generic fallback URL of `get_medicine_link`. -/
def medicine_fallback_url : String :=
  "https://www.bighaat.com/collections/pest-disease-management"

/-- The static ordered keyword table of `get_medicine_link`. -/
def medicine_mapping : List (String × String) :=
  [("mancozeb", "https://www.bighaat.com/products/indofil-m-45-mancozeb-75-wp-500-gm"),
   ("propiconazole", "https://www.bighaat.com/products/tilt-propiconazole-25-ec"),
   ("copper oxychloride", "https://www.bighaat.com/products/copper-oxychloride-50-wp-500gm"),
   ("carbendazim", "https://www.bighaat.com/products/bavistin-carbendazim-50-wp-100-gm"),
   ("sulphur", "https://www.bighaat.com/products/sulfex-80-wdg-sulphur-1-kg"),
   ("imidacloprid", "https://www.bighaat.com/products/command-imidacloprid-17-8-sl"),
   ("chlorpyrifos", "https://www.bighaat.com/collections/insecticides"),
   ("acetamiprid", "https://www.bighaat.com/collections/insecticides"),
   ("thiamethoxam", "https://www.bighaat.com/collections/insecticides"),
   ("neem", "https://www.bighaat.com/products/neem-oil-azadirachtin-300-ppm"),
   ("urea", "https://www.bighaat.com/collections/fertilizers"),
   ("npk", "https://www.bighaat.com/collections/fertilizers"),
   ("dap", "https://www.bighaat.com/collections/fertilizers")]

/-- The `for key, url in mapping` loop of `get_medicine_link`. -/
def medicineLoop (t : String) : List (String × String) → String
  | [] => medicine_fallback_url
  | (key, url) :: rest =>
    if strContainsSub t key then url else medicineLoop t rest

/-- `get_medicine_link` from `src/main.py` at its annotated type (`str`). -/
def get_medicine_link (primary_text : String) : String :=
  medicineLoop (pyLower primary_text) medicine_mapping

/-! ### Python operation semantics on parsed values

The analysis endpoints apply `dict` operations to values that `json.loads`
does not guarantee to be dicts; a `TypeError`/`AttributeError`/`KeyError`
raised there is modelled as `Except.error ()` and is caught by the endpoint's
generic `except` clause (HTTP 500). -/

/-- `v.get(k, d)`: `AttributeError` when `v` is not a dict. -/
def pyGetD (v : Json) (k : String) (d : Json) : Except Unit Json :=
  match v with
  | .obj kvs => .ok ((objLookup kvs k).getD d)
  | _ => .error ()

/-- `v.get(k)` (default `None`): `AttributeError` when `v` is not a dict. -/
def pyGetOpt (v : Json) (k : String) : Except Unit (Option Json) :=
  match v with
  | .obj kvs => .ok (objLookup kvs k)
  | _ => .error ()

/-- `v[k] = x`: `TypeError` when `v` is not a dict. -/
def pySet (v : Json) (k : String) (x : Json) : Except Unit Json :=
  match v with
  | .obj kvs => .ok (.obj (objInsert kvs k x))
  | _ => .error ()

/-- Python `a or b` where `a` came from a `.get` (so `None` for a missing
key). -/
def pyOptOr (o : Option Json) (b : Json) : Json :=
  match o with
  | some v => if pyFalsy v then b else v
  | none => b

/-- Python `a or b` on values. -/
def pyOrJ (a b : Json) : Json := if pyFalsy a then b else a

/-- `v[0]`: first list element, first character of a string (as a 1-char
string); `KeyError` on a dict (all JSON keys are strings, never `0`),
`TypeError` otherwise, `IndexError` on an empty sequence. -/
def pyIndex0 (v : Json) : Except Unit Json :=
  match v with
  | .arr (x :: _) => .ok x
  | .str s =>
    match s.data with
    | c :: _ => .ok (.str (String.mk [c]))
    | [] => .error ()
  | _ => .error ()

/-- Python `key in v` for a string `key`: key membership for a dict, element
equality for a list, substring for a string, `TypeError` otherwise. -/
def pyContainsStr (v : Json) (key : String) : Except Unit Bool :=
  match v with
  | .obj kvs => .ok (kvs.any (fun kv => kv.1 == key))
  | .arr xs =>
    .ok (xs.any (fun x =>
      match x with
      | .str s => s == key
      | _ => false))
  | .str s => .ok (strContainsSub s key)
  | _ => .error ()

/-- `pyGetD` as a total function (what the value is when the `.get` did not
raise); used to state frame properties. -/
def pyLookupD (v : Json) (k : String) (d : Json) : Json :=
  match v with
  | .obj kvs => (objLookup kvs k).getD d
  | _ => d

/-- `translate_text` as the endpoints apply it: its argument is a parsed JSON
value, not necessarily a string.  Falsy input or target `en` returns the value
unchanged (whatever its type); otherwise the prompt interpolates `str(value)`
and the model's reply (a string) replaces the value; an exception returns the
original value. -/
def translate_json_field (gen : Gen) (v : Json) (target_lang : String) : Json :=
  if pyFalsy v || target_lang == "en" then v
  else
    match gen (transPrompt (pyStr v) target_lang) with
    | .error _ => v
    | .ok r => .str (pyStrip (r.getD ""))

/-- `translate_list` as the endpoints apply it, on a parsed JSON value:
`(items or [])` then one `translate_text` per yielded element.  Iterating a
string yields its characters and a dict its keys (both producing a list of
translated strings); a truthy number/bool/`None` raises `TypeError`. -/
def translate_json_list (gen : Gen) (v : Json) (lang : String) :
    Except Unit Json :=
  let base := if pyFalsy v then Json.arr [] else v
  match base with
  | .arr xs => .ok (.arr (xs.map (fun x => translate_json_field gen x lang)))
  | .str s =>
    .ok (.arr (s.data.map (fun c =>
      translate_json_field gen (.str (String.mk [c])) lang)))
  | .obj kvs =>
    .ok (.arr (kvs.map (fun kv =>
      translate_json_field gen (.str kv.1) lang)))
  | _ => .error ()

/-- One `it[k] = translate_text(it.get(k, ""), language)` statement. -/
def transStrField (gen : Gen) (lang : String) (it : Json) (k : String) :
    Except Unit Json := do
  let cur ← pyGetD it k (.str "")
  pySet it k (translate_json_field gen cur lang)

/-- The loop body for one `issues` entry (lines 210–213 of `src/main.py`). -/
def transIssue (gen : Gen) (lang : String) (it : Json) : Except Unit Json := do
  let it1 ← transStrField gen lang it "name"
  let it2 ← transStrField gen lang it1 "type"
  let it3 ← transStrField gen lang it2 "severity"
  let ev ← pyGetD it3 "evidence" (.arr [])
  let evT ← translate_json_list gen ev lang
  pySet it3 "evidence" evT

/-- The loop body for one `chemical`/`fertilizer` entry
(`product`/`dose`/`notes`). -/
def transProdEntry (gen : Gen) (lang : String) (c : Json) : Except Unit Json := do
  let c1 ← transStrField gen lang c "product"
  let c2 ← transStrField gen lang c1 "dose"
  transStrField gen lang c2 "notes"

/-- The loop body for one `organic` entry (`method`/`dose`/`notes`). -/
def transMethodEntry (gen : Gen) (lang : String) (o : Json) : Except Unit Json := do
  let o1 ← transStrField gen lang o "method"
  let o2 ← transStrField gen lang o1 "dose"
  transStrField gen lang o2 "notes"

/-- `for it in v: <mutate it>` where the loop body rewrites each yielded item
in place: list elements are replaced by their mutated versions; iterating a
string yields fresh 1-char strings and a dict its keys, so the container
itself is returned unchanged (the body, run for its effect, raises on those
yields unless the container is empty); other values raise `TypeError`. -/
def mutateEach (f : Json → Except Unit Json) (v : Json) : Except Unit Json :=
  match v with
  | .arr xs => do
    let ys ← xs.mapM f
    pure (.arr ys)
  | .str s => do
    let _ ← s.data.mapM (fun c => f (.str (String.mk [c])))
    pure v
  | .obj kvs => do
    let _ ← kvs.mapM (fun kv => f (.str kv.1))
    pure v
  | _ => .error ()

/-- `for c in (container.get(key) or []): <mutate c>`: when the key holds a
non-empty list its elements are mutated in place (so the container afterwards
holds the mutated list); a falsy or missing value iterates the fresh `[]` and
leaves the container untouched; a truthy non-list is iterated with the usual
Python semantics (the mutating body then raises on every yielded item). -/
def transEntries (f : Json → Except Unit Json) (container : Json)
    (key : String) : Except Unit Json := do
  let got ← pyGetOpt container key
  match got with
  | some (Json.arr xs) =>
    if xs.isEmpty then pure container
    else do
      let ys ← xs.mapM f
      pySet container key (.arr ys)
  | _ =>
    match pyOptOr got (.arr []) with
    | .arr _ => pure container
    | .str s => do
      let _ ← s.data.mapM (fun c => f (.str (String.mk [c])))
      pure container
    | .obj kvs => do
      let _ ← kvs.mapM (fun kv => f (.str kv.1))
      pure container
    | _ => .error ()

/-- `get_medicine_link` as the endpoints apply it, on a parsed JSON value:
`(primary_text or "").lower()` raises `AttributeError` when the truthy value
is not a string. -/
def get_medicine_link_j (v : Json) : Except Unit String :=
  match pyOrJ v (.str "") with
  | .str s => .ok (get_medicine_link s)
  | _ => .error ()

/-! ### The endpoints

Each endpoint is modelled from the successful image decode onward: its first
argument is the outcome of `build_model().generate_content([PROMPT, image])`
followed by the `.text` access (`.error ()` for any exception up to there,
`.ok r` for a returned text attribute).  `safe_json_parse` is applied to
`resp.text or ""` exactly as `ask_gemini_json` does. -/

/-- Line 198 of `src/main.py`:
`(issues[0].get("name") if issues else "") or ""`. -/
def firstIssueOf (issues : Json) : Except Unit Json :=
  if pyTruthy issues then do
    let e0 ← pyIndex0 issues
    let nm ← pyGetOpt e0 "name"
    pure (pyOptOr nm (.str ""))
  else pure (.str "")

/-- Response payload of `/api/analyze/plant`. -/
structure PlantPayload where
  success : Bool
  plant : Json
  health : Json
  issues : Json
  treatment : Json
  prevention : Json
  summary : String
  medicine_url : String

/-- Lines 188–232 of `src/main.py` (after the root-key guard), as one
`Except Unit` computation; any error is the generic `except` → HTTP 500. -/
def plantBody (gen : Gen) (language : String) (data : Json) :
    Except Unit PlantPayload := do
  let plant ← pyGetD data "plant" (.obj [])
  let health ← pyGetD data "health" (.obj [])
  let issues ← pyGetD data "issues" (.arr [])
  let treatment ← pyGetD data "treatment" (.obj [])
  let prevention ← pyGetD data "prevention" (.arr [])
  let commonGot ← pyGetOpt plant "common_name"
  let common := pyOptOr commonGot (.str "Unknown plant")
  let sciGot ← pyGetOpt plant "scientific_name"
  let sci := pyOptOr sciGot (.str "")
  let score ← pyGetD health "score" (.numI 0)
  let first_issue ← firstIssueOf issues
  let chemGot ← pyGetOpt treatment "chemical"
  let ce0 ← pyIndex0 (pyOptOr chemGot (.arr [.obj []]))
  let prodGot ← pyGetOpt ce0 "product"
  let first_chem := pyOptOr prodGot (.str "")
  let sbase := "Identified: " ++ pyStr common ++
    (if pyTruthy sci then " (" ++ pyStr sci ++ ")" else "") ++
    ". Health score: " ++ pyStr score ++ "/100."
  let s1 := if pyTruthy first_issue then
      sbase ++ " Primary issue: " ++ pyStr first_issue ++ "."
    else sbase
  let summary_en := if pyTruthy first_chem then
      s1 ++ " Recommended treatment: " ++ pyStr first_chem ++ "."
    else s1
  let buy_url ← get_medicine_link_j (pyOrJ (pyOrJ first_chem first_issue) common)
  let summary := translate_text gen summary_en language
  let issuesT ← mutateEach (transIssue gen language) issues
  let treatment1 ← transEntries (transProdEntry gen language) treatment "chemical"
  let treatment2 ← transEntries (transMethodEntry gen language) treatment1 "organic"
  let preventionT ← translate_json_list gen prevention language
  pure { success := true, plant := plant, health := health, issues := issuesT,
         treatment := treatment2, prevention := preventionT, summary := summary,
         medicine_url := buy_url }

def plantMissingMsg : String := "AI could not extract plant details. Try a clearer image."
def plantFailMsg : String := "Failed to analyze plant image."

/-- `/api/analyze/plant` (`analyze_plant` in `src/main.py`): `.error (s, d)`
models `HTTPException(status_code := s, detail := d)`. -/
def analyze_plant (modelResp : Except Unit (Option String)) (gen : Gen)
    (language : String) : Except (Nat × String) PlantPayload :=
  match modelResp with
  | .error _ => .error (500, plantFailMsg)
  | .ok t =>
    let data := safe_json_parse (t.getD "")
    if pyFalsy data then .error (422, plantMissingMsg)
    else
      match pyContainsStr data "plant" with
      | .error _ => .error (500, plantFailMsg)
      | .ok false => .error (422, plantMissingMsg)
      | .ok true =>
        match plantBody gen language data with
        | .error _ => .error (500, plantFailMsg)
        | .ok p => .ok p

/-- Response payload of `/api/analyze/pest`. -/
structure PestPayload where
  success : Bool
  pest : Json
  damage : Json
  hosts : Json
  control : Json
  prevention : Json
  summary : String
  medicine_url : String

/-- Lines 298–331 of `src/main.py` (after the root-key guard). -/
def pestBody (gen : Gen) (language : String) (data : Json) :
    Except Unit PestPayload := do
  let pest ← pyGetD data "pest" (.obj [])
  let damage ← pyGetD data "damage" (.obj [])
  let hosts ← pyGetD data "hosts" (.obj [])
  let control ← pyGetD data "control" (.obj [])
  let prevention ← pyGetD data "prevention" (.arr [])
  let cname ← pyGetD pest "common_name" (.str "Pest")
  let sev ← pyGetD damage "severity" (.numI 0)
  let chemGot ← pyGetOpt control "chemical"
  let ce0 ← pyIndex0 (pyOptOr chemGot (.arr [.obj []]))
  let chem_first ← pyGetD ce0 "product" (.str "")
  let summary_en := pyStr cname ++ " detected. Damage severity: " ++
    pyStr sev ++ "%. Recommended treatment: " ++
    pyStr (pyOrJ chem_first (.str "See control measures")) ++ "."
  let summary := translate_text gen summary_en language
  let control1 ← transEntries (transProdEntry gen language) control "chemical"
  let control2 ← transEntries (transMethodEntry gen language) control1 "organic"
  let preventionT ← translate_json_list gen prevention language
  let buy_url ← get_medicine_link_j (pyOrJ chem_first cname)
  pure { success := true, pest := pest, damage := damage, hosts := hosts,
         control := control2, prevention := preventionT, summary := summary,
         medicine_url := buy_url }

def pestMissingMsg : String := "AI could not extract pest details. Try a clearer image."
def pestFailMsg : String := "Failed to analyze pest image."

/-- `/api/analyze/pest` (`analyze_pest` in `src/main.py`). -/
def analyze_pest (modelResp : Except Unit (Option String)) (gen : Gen)
    (language : String) : Except (Nat × String) PestPayload :=
  match modelResp with
  | .error _ => .error (500, pestFailMsg)
  | .ok t =>
    let data := safe_json_parse (t.getD "")
    if pyFalsy data then .error (422, pestMissingMsg)
    else
      match pyContainsStr data "pest" with
      | .error _ => .error (500, pestFailMsg)
      | .ok false => .error (422, pestMissingMsg)
      | .ok true =>
        match pestBody gen language data with
        | .error _ => .error (500, pestFailMsg)
        | .ok p => .ok p

/-- Response payload of `/api/validate/image` (both branches). -/
structure ValidatePayload where
  success : Bool
  is_agricultural : Bool
  message : String

/-- `/api/validate/image` (`validate_image` in `src/main.py`): classification
is substring search for `"yes"` in the stripped, lowercased response; the
whole body is wrapped in `try`, the `except` returning a fixed negative
payload — this endpoint never raises. -/
def validate_image (modelResp : Except Unit (Option String)) (gen : Gen)
    (language : String) : ValidatePayload :=
  match modelResp with
  | .error _ =>
    { success := false, is_agricultural := false,
      message := "Validation failed, please try again." }
  | .ok t =>
    let is_agri := strContainsSub (pyLower (pyStrip (t.getD ""))) "yes"
    let message := if is_agri then "Image validated successfully"
      else "Please upload an agriculture-related image"
    { success := true, is_agricultural := is_agri,
      message := translate_text gen message language }

/-! ### Concrete oracles and model texts used in the theorems -/

/-- An oracle whose every call raises. -/
def genErr : Gen := fun _ => .error ()

/-- An oracle that answers every prompt with the text `TR`. -/
def genTR : Gen := fun _ => .ok (some "TR")

/-- An oracle that answers every prompt with an empty response text. -/
def genEmptyResp : Gen := fun _ => .ok (some "")

/-- The plant model output of the spec's end-to-end scenario. -/
def tomatoText : String :=
  "\x7b\"plant\":\x7b\"common_name\":\"Tomato\"\x7d,\"health\":\x7b\"score\":80\x7d,\"issues\":[\x7b\"name\":\"Blight\"\x7d],\"treatment\":\x7b\"chemical\":[\x7b\"product\":\"Mancozeb\"\x7d]\x7d\x7d"

/-- A plant model output whose issue carries the `type` tag
`disease` (one of the schema's `disease|pest|deficiency` tags). -/
def typedIssueText : String :=
  "\x7b\"plant\":\x7b\"common_name\":\"Tomato\"\x7d,\"issues\":[\x7b\"name\":\"Blight\",\"type\":\"disease\",\"severity\":\"mild\"\x7d]\x7d"

/-- A pest model output with a numeric severity score. -/
def aphidText : String :=
  "\x7b\"pest\":\x7b\"common_name\":\"Aphid\"\x7d,\"damage\":\x7b\"severity\":40\x7d\x7d"

/-- Modelled from the words of claim C1, not from the source: parse the
brace-span substring; if that parse FAILS, parse the entire text verbatim;
any parse exception yields an empty mapping.  (The source instead returns
`{}` directly when the span parse fails.) -/
def claimed_json_extract (text : String) : Json :=
  match braceSpan text with
  | some core =>
    match jsonLoads core with
    | some v => v
    | none => (jsonLoads text).getD (.obj [])
  | none => (jsonLoads text).getD (.obj [])

/-- The text `"{,}"` (quotes included): its brace span `{,}` is invalid JSON
while the whole text is a valid JSON string. -/
def c1CxText : String := "\"\x7b,\x7d\""

/-- The `type` tag of the first issue of a plant payload. -/
def issueTypeOf (p : PlantPayload) : Json :=
  match p.issues with
  | .arr (x :: _) => pyLookupD x "type" Json.null
  | _ => Json.null

def emptyPlantPayload : PlantPayload := ⟨false, .null, .null, .null, .null, .null, "", ""⟩

def emptyPestPayload : PestPayload := ⟨false, .null, .null, .null, .null, .null, "", ""⟩

/-- The plant payload produced for `typedIssueText` under the `TR` oracle and
target language `hi`. -/
def c5PlantP : PlantPayload :=
  (analyze_plant (.ok (some typedIssueText)) genTR "hi").toOption.getD emptyPlantPayload

/-- The pest payload produced for `aphidText` under the `TR` oracle and
target language `hi`. -/
def c5PestP : PestPayload :=
  (analyze_pest (.ok (some aphidText)) genTR "hi").toOption.getD emptyPestPayload

/-! ### Sanity checks on the embedding -/

example : jsonLoads "\x7b\"a\":1\x7d" = some (.obj [("a", .numI 1)]) := rfl
example : jsonLoads "123" = some (.numI 123) := rfl
example : jsonLoads "\x7b,\x7d" = none := rfl
example : jsonLoads "\"\x7b,\x7d\"" = some (.str "\x7b,\x7d") := rfl
example : braceSpan "Here is data: \x7b\"a\":1\x7d thanks" = some "\x7b\"a\":1\x7d" := rfl
example : safe_json_parse "Here is data: \x7b\"a\":1\x7d thanks" = .obj [("a", .numI 1)] := rfl
example : safe_json_parse "thanks for the data" = .obj [] := rfl
example : safe_json_parse "123" = .numI 123 := rfl
example : safe_json_parse "\"\x7b,\x7d\"" = .obj [] := rfl

/-! ### Helper lemmas -/

theorem exceptBind_ok {α β : Type} {e : Except Unit α} {f : α → Except Unit β}
    {b : β} (h : e >>= f = .ok b) : ∃ a, e = .ok a ∧ f a = .ok b := by
  cases e with
  | error u => exact Except.noConfusion h
  | ok a => exact ⟨a, rfl, h⟩

theorem pyGetD_ok {v : Json} {k : String} {d x : Json}
    (h : pyGetD v k d = .ok x) : x = pyLookupD v k d := by
  cases v <;> simp_all [pyGetD, pyLookupD]

theorem medicineLoop_eq_find (t : String) (l : List (String × String)) :
    medicineLoop t l =
      ((l.find? (fun kv => strContainsSub t kv.1)).map Prod.snd).getD
        medicine_fallback_url := by
  induction l with
  | nil => rfl
  | cons kv rest ih =>
    obtain ⟨key, url⟩ := kv
    cases hc : strContainsSub t key
    · simp [medicineLoop, List.find?, hc, ih]
    · simp [medicineLoop, List.find?, hc]

/-! ### Claim theorems -/

/-- Claim C4: `get_medicine_link` matches against the fixed ordered keyword
table by case-insensitive substring match, the first listed matching keyword
wins (`List.find?` over the table in order), and the generic fallback URL is
returned when no keyword matches; in particular the Mancozeb example and the
unknown-substance fallback hold. -/
theorem C4_medicine_link :
    (∀ s : String, get_medicine_link s =
      ((medicine_mapping.find? (fun kv => strContainsSub (pyLower s) kv.1)).map
        Prod.snd).getD medicine_fallback_url)
    ∧ get_medicine_link "Apply Mancozeb 75 WP" =
      "https://www.bighaat.com/products/indofil-m-45-mancozeb-75-wp-500-gm"
    ∧ get_medicine_link "unknown substance" = medicine_fallback_url :=
  ⟨fun s => medicineLoop_eq_find (pyLower s) medicine_mapping, rfl, rfl⟩

/-- Claim C7: when the target language is `en` or the input text is empty,
`translate_text` returns the input unchanged and issues zero model calls; in
particular `translate_text "Hello" "en" = "Hello"` under every oracle. -/
theorem C7_passthrough :
    (∀ (gen : Gen) (text lang : String), text = "" ∨ lang = "en" →
      translate_textC gen text lang = (text, 0))
    ∧ (∀ gen : Gen, translate_text gen "Hello" "en" = "Hello") := by
  constructor
  · intro gen text lang h
    rcases h with h | h
    · subst h; rfl
    · subst h
      cases ht : text.isEmpty <;> simp [translate_textC, ht]
  · intro gen; rfl

/-- Witness for C7 at a concrete input. -/
theorem C7_witness : translate_textC genErr "Hello" "en" = ("Hello", 0) :=
  C7_passthrough.1 genErr "Hello" "en" (Or.inr rfl)

/-- Claim C10: `translate_list` maps `translate_text` over its input,
preserving length and the elementwise correspondence, and returns the empty
list on `None` without raising. -/
theorem C10_translate_list :
    (∀ (gen : Gen) (lang : String) (xs : List String),
      (translate_list gen (some xs) lang).length = xs.length)
    ∧ (∀ (gen : Gen) (lang : String) (xs : List String) (i : Nat),
      (translate_list gen (some xs) lang)[i]? =
        (xs[i]?).map (fun x => translate_text gen x lang))
    ∧ (∀ (gen : Gen) (lang : String), translate_list gen none lang = []) := by
  refine ⟨fun gen lang xs => ?_, fun gen lang xs i => ?_, fun gen lang => rfl⟩
  · simp [translate_list]
  · simp [translate_list]

/-- Claim C8: the validation endpoint classifies the image as agricultural
exactly when `yes` occurs (case-insensitively) in the trimmed model response;
the two example responses classify as stated; and a raised exception yields
the fixed negative payload (the endpoint's return type carries no HTTP
error). -/
theorem C8_validate :
    (∀ (t : String) (gen : Gen) (lang : String),
      (validate_image (.ok (some t)) gen lang).is_agricultural =
        strContainsSub (pyLower (pyStrip t)) "yes")
    ∧ (∀ (t : String) (gen : Gen) (lang : String),
      (validate_image (.ok (some t)) gen lang).success = true)
    ∧ (∀ gen : Gen,
      (validate_image (.ok (some "Yes, this is a crop.")) gen "en").is_agricultural = true)
    ∧ (∀ gen : Gen,
      (validate_image (.ok (some "No.")) gen "en").is_agricultural = false)
    ∧ (∀ (gen : Gen) (lang : String), validate_image (.error ()) gen lang =
      { success := false, is_agricultural := false,
        message := "Validation failed, please try again." }) :=
  ⟨fun _ _ _ => rfl, fun _ _ _ => rfl, fun _ => rfl, fun _ => rfl, fun _ _ => rfl⟩

/-- Claim C2 (code bug): on model response text `123` — text with no
parseable JSON object — both analysis endpoints fail with HTTP 500 (the
membership test `"plant" not in 123` raises `TypeError`), not with the 422
the claim asserts. -/
theorem C2_code_eval :
    analyze_plant (.ok (some "123")) genErr "en" = .error (500, plantFailMsg)
    ∧ analyze_pest (.ok (some "123")) genErr "en" = .error (500, pestFailMsg) :=
  ⟨rfl, rfl⟩

/-- Claim C6 (code bug): on input `123`, `safe_json_parse` returns the parsed
integer — not a mapping — contradicting its own `Dict[str, Any]` annotation
and the claim. -/
theorem C6_code_eval :
    safe_json_parse "123" = Json.numI 123
    ∧ Json.isObj (safe_json_parse "123") = false := ⟨rfl, rfl⟩

/-- Claim C9: on the end-to-end plant scenario with language `en`, the
endpoint succeeds; the summary contains `Tomato`, `80/100`, `Blight` and
`Mancozeb`; and the medicine link is the Mancozeb product URL. -/
theorem C9_end_to_end :
    (analyze_plant (.ok (some tomatoText)) genErr "en").toOption.map
      (fun p => p.success && strContainsSub p.summary "Tomato" &&
        strContainsSub p.summary "80/100" && strContainsSub p.summary "Blight" &&
        strContainsSub p.summary "Mancozeb" &&
        (p.medicine_url ==
          "https://www.bighaat.com/products/indofil-m-45-mancozeb-75-wp-500-gm"))
      = some true := rfl

/-- Counterexample to claim C1 as stated: on the text `"{,}"` the brace span
`{,}` fails to parse, and `safe_json_parse` returns `{}` directly, whereas
the claimed algorithm (parse the entire text verbatim after a span-parse
failure) would return the JSON string `{,}`. -/
theorem C1_counterexample :
    safe_json_parse c1CxText = Json.obj []
    ∧ claimed_json_extract c1CxText = Json.str "\x7b,\x7d"
    ∧ Json.isObj (claimed_json_extract c1CxText) = false := ⟨rfl, rfl, rfl⟩

/-- Claim C1 as amended: `safe_json_parse` parses the first-`{`-to-last-`}`
span when one exists, returning `{}` if that span fails to parse (without
attempting the whole text); only when no span exists is the entire text
parsed verbatim; the two examples of the claim hold. -/
theorem C1_amended :
    (∀ text core, braceSpan text = some core → jsonLoads core = none →
      safe_json_parse text = Json.obj [])
    ∧ (∀ text core v, braceSpan text = some core → jsonLoads core = some v →
      safe_json_parse text = v)
    ∧ (∀ text, braceSpan text = none →
      safe_json_parse text = (jsonLoads text).getD (Json.obj []))
    ∧ safe_json_parse "Here is data: \x7b\"a\":1\x7d thanks" =
      Json.obj [("a", Json.numI 1)]
    ∧ safe_json_parse "thanks for the data" = Json.obj [] := by
  refine ⟨?_, ?_, ?_, rfl, rfl⟩
  · intro text core h1 h2
    simp [safe_json_parse, h1, h2]
  · intro text core v h1 h2
    simp [safe_json_parse, h1, h2]
  · intro text h1
    simp [safe_json_parse, h1]

/-- Witness for C1 discharging each hypothesis at concrete inputs. -/
theorem C1_witness :
    safe_json_parse "x\x7b,\x7d" = Json.obj []
    ∧ safe_json_parse "Here is \x7b\"a\":1\x7d" = Json.obj [("a", Json.numI 1)]
    ∧ safe_json_parse "thanks" = (jsonLoads "thanks").getD (Json.obj []) :=
  ⟨C1_amended.1 _ "\x7b,\x7d" rfl rfl,
   C1_amended.2.1 _ "\x7b\"a\":1\x7d" _ rfl rfl,
   C1_amended.2.2.1 "thanks" rfl⟩

/-- Counterexample to claim C3 as stated: a non-raising empty model response
makes `translate_text` return the empty string, not the original input. -/
theorem C3_counterexample :
    translate_text genEmptyResp "Hello" "hi" = ""
    ∧ (("" : String) == "Hello") = false := ⟨rfl, rfl⟩

/-- Claim C3 as amended: if the translation call raises, `translate_text`
returns the original text unchanged (and, being total, never propagates an
exception); but a call that returns an empty or missing response text yields
the empty string, not the original. -/
theorem C3_amended :
    (∀ (gen : Gen) (text lang : String), (∀ p, gen p = .error ()) →
      translate_text gen text lang = text)
    ∧ (∀ (gen : Gen) (text lang : String), (text.isEmpty) = false →
      (lang == "en") = false → gen (transPrompt text lang) = .ok (some "") →
      translate_text gen text lang = "")
    ∧ (∀ (gen : Gen) (text lang : String), (text.isEmpty) = false →
      (lang == "en") = false → gen (transPrompt text lang) = .ok none →
      translate_text gen text lang = "") := by
  refine ⟨?_, ?_, ?_⟩
  · intro gen text lang h
    cases hc : (text.isEmpty || lang == "en") <;>
      simp [translate_text, translate_textC, hc, h]
  · intro gen text lang ht hl hgen
    simp [translate_text, translate_textC, ht, hl, hgen]
    rfl
  · intro gen text lang ht hl hgen
    simp [translate_text, translate_textC, ht, hl, hgen]
    rfl

/-- Witness for C3 discharging each hypothesis at concrete inputs. -/
theorem C3_witness :
    translate_text genErr "Hola" "hi" = "Hola"
    ∧ translate_text genEmptyResp "Hola" "hi" = ""
    ∧ translate_text (fun _ => .ok none) "Hola" "hi" = "" :=
  ⟨C3_amended.1 genErr "Hola" "hi" (fun _ => rfl),
   C3_amended.2.1 genEmptyResp "Hola" "hi" rfl rfl rfl,
   C3_amended.2.2 (fun _ => .ok none) "Hola" "hi" rfl rfl rfl⟩

theorem plantBody_fields {gen : Gen} {lang : String} {data : Json}
    {p : PlantPayload} (h : plantBody gen lang data = .ok p) :
    p.plant = pyLookupD data "plant" (.obj [])
    ∧ p.health = pyLookupD data "health" (.obj []) := by
  unfold plantBody at h
  obtain ⟨plant, hplant, h⟩ := exceptBind_ok h
  obtain ⟨health, hhealth, h⟩ := exceptBind_ok h
  obtain ⟨issues, _, h⟩ := exceptBind_ok h
  obtain ⟨treatment, _, h⟩ := exceptBind_ok h
  obtain ⟨prevention, _, h⟩ := exceptBind_ok h
  obtain ⟨commonGot, _, h⟩ := exceptBind_ok h
  obtain ⟨sciGot, _, h⟩ := exceptBind_ok h
  obtain ⟨score, _, h⟩ := exceptBind_ok h
  obtain ⟨first_issue, _, h⟩ := exceptBind_ok h
  obtain ⟨chemGot, _, h⟩ := exceptBind_ok h
  obtain ⟨ce0, _, h⟩ := exceptBind_ok h
  obtain ⟨prodGot, _, h⟩ := exceptBind_ok h
  obtain ⟨buy_url, _, h⟩ := exceptBind_ok h
  obtain ⟨issuesT, _, h⟩ := exceptBind_ok h
  obtain ⟨treatment1, _, h⟩ := exceptBind_ok h
  obtain ⟨treatment2, _, h⟩ := exceptBind_ok h
  obtain ⟨preventionT, _, h⟩ := exceptBind_ok h
  cases h
  exact ⟨pyGetD_ok hplant, pyGetD_ok hhealth⟩

theorem pestBody_fields {gen : Gen} {lang : String} {data : Json}
    {q : PestPayload} (h : pestBody gen lang data = .ok q) :
    q.pest = pyLookupD data "pest" (.obj [])
    ∧ q.damage = pyLookupD data "damage" (.obj [])
    ∧ q.hosts = pyLookupD data "hosts" (.obj []) := by
  unfold pestBody at h
  obtain ⟨pest, hpest, h⟩ := exceptBind_ok h
  obtain ⟨damage, hdamage, h⟩ := exceptBind_ok h
  obtain ⟨hosts, hhosts, h⟩ := exceptBind_ok h
  obtain ⟨control, _, h⟩ := exceptBind_ok h
  obtain ⟨prevention, _, h⟩ := exceptBind_ok h
  obtain ⟨cname, _, h⟩ := exceptBind_ok h
  obtain ⟨sev, _, h⟩ := exceptBind_ok h
  obtain ⟨chemGot, _, h⟩ := exceptBind_ok h
  obtain ⟨ce0, _, h⟩ := exceptBind_ok h
  obtain ⟨chem_first, _, h⟩ := exceptBind_ok h
  obtain ⟨control1, _, h⟩ := exceptBind_ok h
  obtain ⟨control2, _, h⟩ := exceptBind_ok h
  obtain ⟨preventionT, _, h⟩ := exceptBind_ok h
  obtain ⟨buy_url, _, h⟩ := exceptBind_ok h
  cases h
  exact ⟨pyGetD_ok hpest, pyGetD_ok hdamage, pyGetD_ok hhosts⟩

/-- Counterexample to claim C5 as stated: the issue `type` tag — the schema's
`disease|pest|deficiency` tag — is NOT left unchanged by the translation
phase: with an oracle answering `TR` and target language `hi`, the plant
endpoint succeeds on `typedIssueText` (whose parse visibly carries
`"type": "disease"`) and returns the first issue with `type` rewritten to
`TR`. -/
theorem C5_counterexample :
    (analyze_plant (.ok (some typedIssueText)) genTR "hi").toOption.map issueTypeOf
      = some (Json.str "TR")
    ∧ safe_json_parse typedIssueText =
      Json.obj [("plant", Json.obj [("common_name", Json.str "Tomato")]),
        ("issues", Json.arr [Json.obj [("name", Json.str "Blight"),
          ("type", Json.str "disease"), ("severity", Json.str "mild")]])]
    ∧ (("TR" : String) == "disease") = false := ⟨rfl, rfl, rfl⟩

/-- Claim C5 as amended: the translation phase rewrites the summary and the
designated user-facing fields (for plant: the issues' `name`/`type`/
`severity`/`evidence`, the treatment entries' `product`/`dose`/`notes`, and
`prevention`; for pest: the control entries and `prevention`); the `plant`,
`health`, `pest`, `damage` and `hosts` sub-mappings — in particular the
numeric `health.score` and `damage.severity` fields they carry — are returned
exactly as extracted, but the issues' `type` and `severity` tags are
translated like any other string field, not left unchanged. -/
theorem C5_amended :
    (∀ (t : Option String) (gen : Gen) (lang : String) (p : PlantPayload),
      analyze_plant (.ok t) gen lang = .ok p →
      p.plant = pyLookupD (safe_json_parse (t.getD "")) "plant" (Json.obj [])
      ∧ p.health = pyLookupD (safe_json_parse (t.getD "")) "health" (Json.obj []))
    ∧ (∀ (t : Option String) (gen : Gen) (lang : String) (q : PestPayload),
      analyze_pest (.ok t) gen lang = .ok q →
      q.pest = pyLookupD (safe_json_parse (t.getD "")) "pest" (Json.obj [])
      ∧ q.damage = pyLookupD (safe_json_parse (t.getD "")) "damage" (Json.obj [])
      ∧ q.hosts = pyLookupD (safe_json_parse (t.getD "")) "hosts" (Json.obj [])) := by
  constructor
  · intro t gen lang p h
    simp only [analyze_plant] at h
    split at h
    · exact absurd h (by simp)
    · split at h
      · exact absurd h (by simp)
      · exact absurd h (by simp)
      · split at h
        · exact absurd h (by simp)
        · rename_i p1 hbody
          cases h
          exact plantBody_fields hbody
  · intro t gen lang q h
    simp only [analyze_pest] at h
    split at h
    · exact absurd h (by simp)
    · split at h
      · exact absurd h (by simp)
      · exact absurd h (by simp)
      · split at h
        · exact absurd h (by simp)
        · rename_i q1 hbody
          cases h
          exact pestBody_fields hbody

/-- Witness for C5 discharging the success hypotheses at concrete inputs. -/
theorem C5_witness :
    (c5PlantP.plant = pyLookupD (safe_json_parse typedIssueText) "plant" (Json.obj [])
     ∧ c5PlantP.health = pyLookupD (safe_json_parse typedIssueText) "health" (Json.obj []))
    ∧ (c5PestP.pest = pyLookupD (safe_json_parse aphidText) "pest" (Json.obj [])
       ∧ c5PestP.damage = pyLookupD (safe_json_parse aphidText) "damage" (Json.obj [])
       ∧ c5PestP.hosts = pyLookupD (safe_json_parse aphidText) "hosts" (Json.obj [])) :=
  ⟨C5_amended.1 (some typedIssueText) genTR "hi" c5PlantP rfl,
   C5_amended.2 (some aphidText) genTR "hi" c5PestP rfl⟩
